import Mathlib

/-!
Verification of the beads-sdk client library: a shallow embedding of the
change poller, the orchestrating client, the subprocess client's
`listWithParents` / `create` result handling, and the snapshot (JSONL)
transport's `ready` query, with theorems settling the specification's
claims about them.
-/

/-- Substring test: `strContains s sub` is true when `sub` occurs
contiguously inside `s`. Executable so concrete messages can be checked. -/
def strContains (s sub : String) : Bool :=
  (List.range (s.data.length + 1)).any (fun k => sub.data.isPrefixOf (s.data.drop k))

/-! ## Change poller (poller.ts, `ChangePoller`) -/

/-- State of a `ChangePoller`: `intervalMs` models the `intervalId` timer
handle (`some` iff a periodic timer is running, carrying its interval),
`lastHash` the fingerprint baseline (initially the empty string), and
`callbacks` the registered change callbacks (as opaque identifiers). -/
structure PollerState where
  intervalMs : Option Nat
  lastHash : String
  callbacks : List Nat
deriving DecidableEq

/-- A freshly constructed poller on which the given callbacks were
registered with `onChange`, in order: no timer, `lastHash = ""`. -/
def mkPoller (cbs : List Nat) : PollerState :=
  { intervalMs := none, lastHash := "", callbacks := cbs }

/-- One `poll()` cycle. `sample = none` models `transport.send("stats", {})`
throwing: the catch block swallows the error and nothing changes.
`sample = some hash` models a successful call whose `JSON.stringify` result
is `hash`; callbacks fire iff the previous baseline is nonempty (JS
truthiness of the string `lastHash`) and differs from the new hash, and the
new hash always becomes the baseline. The returned list is the sequence of
callback invocations of this cycle (callbacks modelled as inert: none of
them mutates the subscriber list mid-round). -/
def pollStep (s : PollerState) (sample : Option String) : PollerState × List Nat :=
  match sample with
  | none => (s, [])
  | some hash =>
    if s.lastHash ≠ "" ∧ hash ≠ s.lastHash then
      ({ s with lastHash := hash }, s.callbacks)
    else
      ({ s with lastHash := hash }, [])

/-- `start(intervalMs)`: returns early when a timer is already running,
otherwise installs the timer (default interval 2000 ms) and performs an
immediate poll. The boolean reports whether an immediate sample happened. -/
def startPoller (s : PollerState) (intervalMs : Option Nat) : PollerState × Bool :=
  match s.intervalMs with
  | some _ => (s, false)
  | none => ({ s with intervalMs := some (intervalMs.getD 2000) }, true)

/-- `stop()`: clears the timer if one is running. -/
def stopPoller (s : PollerState) : PollerState :=
  { s with intervalMs := none }

/-! ## Notification loop with live mutation (poller.ts `onChange`/`poll`,
client.ts `onChange`/`notifyChange`)

Both the poller and the orchestrating client notify with
`for (const cb of this.callbacks) cb()`, iterating the live array while a
callback may splice it via the unsubscribe closure
(`indexOf` + `splice(idx, 1)`, i.e. remove the first occurrence). -/

/-- A registered callback: its identifier paired with its effect when
invoked — `some t` unsubscribes the callback with identifier `t` (the
unsubscribe closure removes the first occurrence), `none` does nothing. -/
abbrev NotifyCb := Nat × Option Nat

/-- Unsubscribe: `indexOf` + `splice` removes the first occurrence of the
target callback from the array. -/
def removeCb (cbs : List NotifyCb) (target : Nat) : List NotifyCb :=
  cbs.eraseP (fun c => c.1 == target)

/-- The `for (const cb of this.callbacks) cb()` loop: the array iterator
keeps an index, checks it against the live array's length each step, and
the callback's effect applies before the next step. Fuel bounds the number
of steps; `notifyAll` supplies `cbs.length`, which suffices because the
index grows by one per step while the array never grows. Returns the list
of callback identifiers invoked, in order. -/
def notifyFromAux : Nat → List NotifyCb → Nat → List Nat
  | 0, _, _ => []
  | Nat.succ fuel, cbs, i =>
    if h : i < cbs.length then
      let cb := cbs.get ⟨i, h⟩
      let cbs' := match cb.2 with
        | none => cbs
        | some t => removeCb cbs t
      cb.1 :: notifyFromAux fuel cbs' (i + 1)
    else []

/-- One notification round over the given subscriber array. -/
def notifyAll (cbs : List NotifyCb) : List Nat :=
  notifyFromAux cbs.length cbs 0

/-! ## Orchestrating client (client.ts, `BeadsClient`) -/

/-- Which transport is active. -/
inductive TransportKind where
  | daemon
  | jsonl
deriving DecidableEq

/-- State of the orchestrating `BeadsClient`: booleans model the nullable
`daemon` / `jsonl` transport fields, `transport` the active transport,
`pollerRunning` the change poller, `jsonlWatching` the JSONL file-watch
subscription, and `changeCallbacks` the `onChange` subscriber list. -/
structure ClientState where
  daemon : Bool
  jsonl : Bool
  transport : Option TransportKind
  pollerRunning : Bool
  jsonlWatching : Bool
  connected : Bool
  changeCallbacks : List Nat
deriving DecidableEq

/-- A freshly constructed client: nothing connected, no subscribers. -/
def initClient : ClientState :=
  { daemon := false, jsonl := false, transport := none, pollerRunning := false,
    jsonlWatching := false, connected := false, changeCallbacks := [] }

/-- The fixed message `connect` throws when the daemon probe fails and the
JSONL snapshot cannot be loaded (two string literals concatenated in the
source). -/
def connectMsg : String :=
  "Could not connect to daemon or find JSONL file. " ++
    "Make sure the beads daemon is running or .beads/issues.jsonl exists."

/-- `connect(workspaceRoot)`: pings the daemon; on success the daemon
transport becomes active and the poller starts. On any probe failure the
exception is discarded by the empty catch block (`_daemonFailReason` is the
reason of that discarded failure — it does not influence the result) and
the JSONL fallback is tried; if the snapshot cannot be loaded either,
`connect` throws the fixed `connectMsg`. The subscriber list is untouched. -/
def connectClient (s : ClientState) (daemonOk : Bool) (_daemonFailReason : String)
    (jsonlLoaded : Bool) : Except String ClientState :=
  if daemonOk then
    Except.ok { s with daemon := true, transport := some TransportKind.daemon,
                       connected := true, pollerRunning := true }
  else if jsonlLoaded then
    Except.ok { s with jsonl := true, transport := some TransportKind.jsonl,
                       connected := true, jsonlWatching := true }
  else
    Except.error connectMsg

/-- `disconnect()`: stops the poller, unsubscribes the JSONL watcher,
closes and nulls both transports, resets the connection flag and empties
the change-callback list. -/
def disconnectClient (_s : ClientState) : ClientState :=
  { daemon := false, jsonl := false, transport := none, pollerRunning := false,
    jsonlWatching := false, connected := false, changeCallbacks := [] }

/-- `onChange(callback)`: pushes the callback onto the subscriber list. -/
def onChangeClient (s : ClientState) (cb : Nat) : ClientState :=
  { s with changeCallbacks := s.changeCallbacks ++ [cb] }

/-- `notifyChange()`: invokes every subscriber in list order (subscribers
modelled as inert identifiers); the result is the invocation sequence. -/
def notifyChangeClient (s : ClientState) : List Nat :=
  s.changeCallbacks

/-- The message thrown by `requireDaemon(operation)` when `this.daemon` is
null (two string literals concatenated in the source). -/
def requireDaemonMsg (operation : String) : String :=
  "Operation \"" ++ operation ++ "\" requires a daemon connection. " ++
    "JSONL fallback is read-only."

/-- A write operation (`create` / `update` / `close` / `addDependency`):
`requireDaemon` runs first, so when `this.daemon` is null the call throws
before any `transport.send`; otherwise the operation is sent. The second
component is the list of `transport.send` operation names issued, the third
the client state afterwards (these methods never mutate client fields). -/
def writeOpModel (s : ClientState) (operation : String) :
    Except String Unit × List String × ClientState :=
  if s.daemon then (Except.ok (), [operation], s)
  else (Except.error (requireDaemonMsg operation), [], s)

/-- `create(input)` as dispatched through `requireDaemon` + `send`. -/
def createOpC (s : ClientState) : Except String Unit × List String × ClientState :=
  writeOpModel s "create"

/-- `update(id, changes)` as dispatched through `requireDaemon` + `send`. -/
def updateOpC (s : ClientState) : Except String Unit × List String × ClientState :=
  writeOpModel s "update"

/-- `close(id, reason?)` as dispatched through `requireDaemon` + `send`. -/
def closeOpC (s : ClientState) : Except String Unit × List String × ClientState :=
  writeOpModel s "close"

/-- `addDependency(fromId, toId, type)` as dispatched through
`requireDaemon("dep_add")` + `send`. -/
def addDependencyOpC (s : ClientState) : Except String Unit × List String × ClientState :=
  writeOpModel s "dep_add"

/-! ## Subprocess client enrichment (BeadsClient.ts, `listWithParents`) -/

/-- A dependency entry of a detailed issue (`BdDependency`), reduced to the
fields `listWithParents` reads: the linked issue's `id`, its own `status`,
and the edge's `dependency_type`. -/
structure BdDepM where
  id : String
  dependency_type : String
  status : String
deriving DecidableEq

/-- A `BdIssue` as `listWithParents` manipulates it, reduced to the fields
the enrichment reads or writes. `parent`, `dependencies`, `blocked_by` and
`blocked_by_count` are optional in `BdIssue`; `none` models the field being
absent (`undefined`). -/
structure BdIssueM where
  id : String
  title : String
  status : String
  parent : Option String
  dependencies : Option (List BdDepM)
  blocked_by : Option (List String)
  blocked_by_count : Option Nat
deriving DecidableEq

/-- The blockers filter of `listWithParents`: dependencies whose
`dependency_type` is `"blocks"` and whose status is not `"closed"`. -/
def blockersOf (deps : List BdDepM) : List BdDepM :=
  deps.filter (fun dep => dep.dependency_type == "blocks" && dep.status != "closed")

/-- The per-issue enrichment step of `listWithParents`: spreads the list
issue, copies `parent` when the detailed issue has a truthy one, copies
`dependencies` when present (an empty array is truthy in JS, so `some []`
counts), and when the blockers filter is nonempty sets `blocked_by_count`
and `blocked_by` and turns an `"open"` status into `"blocked"`. -/
def enrichIssue (issue : BdIssueM) (details : Option BdIssueM) : BdIssueM :=
  match details with
  | none => issue
  | some d =>
    let e1 := match d.parent with
      | some p => if p != "" then { issue with parent := some p } else issue
      | none => issue
    match d.dependencies with
    | none => e1
    | some deps =>
      let e2 := { e1 with dependencies := some deps }
      let blockers := blockersOf deps
      if blockers.length > 0 then
        let withB := { e2 with blocked_by_count := some blockers.length,
                               blocked_by := some (blockers.map (fun b => b.id)) }
        if withB.status == "open" then { withB with status := "blocked" } else withB
      else e2

/-- The `detailsMap` of `listWithParents`: built by `Map.set` over the
detailed issues in order, so the last record with a given id wins. -/
def detailsMapGet (detailed : List BdIssueM) (targetId : String) : Option BdIssueM :=
  (detailed.filter (fun d => d.id == targetId)).getLast?

/-- `listWithParents(options)`: fetches the filtered list (`issues`), and —
unless it is empty — the detailed records (`detailed`, the result of
`show(ids)`), then maps each listed issue through the enrichment against
the details map. Both fetches are external subprocess results, so they are
parameters here. -/
def listWithParentsM (issues detailed : List BdIssueM) : List BdIssueM :=
  if issues.length == 0 then issues
  else issues.map (fun issue => enrichIssue issue (detailsMapGet detailed issue.id))

/-! ## Snapshot transport `ready` (transport/jsonl.ts)

The JSONL transport implementation itself is not among the provided source
files — only its tests and its callers are — so the loaded snapshot and the
`ready` query are modelled from the spec (sections 4.3 and 8). -/

/-- Modelled from the spec: a raw dependency edge of a snapshot record —
`(issue_id, depends_on_id, type, created_at)`, directed from the dependent
issue to the issue it depends on (`RawJsonlDependency` in types.ts). -/
structure RawDep where
  issue_id : String
  depends_on_id : String
  type : String
  created_at : String
deriving DecidableEq

/-- Modelled from the spec: a snapshot issue record reduced to the fields
the `ready` query reads — identity, status, and the embedded outgoing edge
list (`RawJsonlIssue` in types.ts). -/
structure RawIssue where
  id : String
  title : String
  status : String
  dependencies : List RawDep
deriving DecidableEq

/-- Modelled from the spec: loading populates an id-keyed mapping with
unique keys where the last record with a given id wins; insertion order of
first occurrence is preserved (JS `Map` semantics). -/
def loadedIssues (snap : List RawIssue) : List RawIssue :=
  snap.foldl
    (fun acc i =>
      if acc.any (fun j => j.id == i.id)
      then acc.map (fun j => if j.id == i.id then i else j)
      else acc ++ [i])
    []

/-- Modelled from the spec: resolving an id against the loaded index. -/
def resolveIssue (snap : List RawIssue) (targetId : String) : Option RawIssue :=
  (loadedIssues snap).find? (fun i => i.id == targetId)

/-- Modelled from the spec: an edge is an unresolved blocking edge when its
type is `blocks` and the referenced blocker resolves to an issue whose
status is not `closed`. A dangling edge (blocker absent from the snapshot)
is tolerated but excluded from derived views that require the target to
exist, so it is not unresolved. -/
def edgeUnresolved (snap : List RawIssue) (e : RawDep) : Bool :=
  e.type == "blocks" &&
    (match resolveIssue snap e.depends_on_id with
     | some b => b.status != "closed"
     | none => false)

/-- Modelled from the spec: how many unresolved `blocks` edges point at an
issue (through its own dependency list). -/
def unresolvedBlockCount (snap : List RawIssue) (i : RawIssue) : Nat :=
  (i.dependencies.filter (edgeUnresolved snap)).length

/-- Modelled from the spec and the transport's own tests: the `ready`
query — issues of the loaded snapshot, in order, with no unresolved
`blocks` edges. On the status filter the spec ("open or in_progress") and
the tests disagree: the test feeds `ready` an `open`, a `closed` and an
`in_progress` issue, each without blockers, and requires exactly the `open`
one back, so the transport filters on status `open` only and the tests
pin that behavior. -/
def readyOp (snap : List RawIssue) : List RawIssue :=
  (loadedIssues snap).filter
    (fun i => i.status == "open" && unresolvedBlockCount snap i == 0)

/-! ## Subprocess client `create` result handling (BeadsClient.ts) -/

/-- A JSON value as `JSON.parse` produces it (numbers modelled as
integers; only zero-ness matters to the code under study). -/
inductive Json where
  | null
  | bool (b : Bool)
  | num (n : Int)
  | str (s : String)
  | arr (items : List Json)
  | obj (fields : List (String × Json))

/-- JS truthiness of a parsed JSON value: `null`, `false`, `0` and `""` are
falsy; arrays and objects are always truthy. -/
def jsTruthy : Json → Bool
  | .null => false
  | .bool b => b
  | .num n => n != 0
  | .str s => s != ""
  | .arr _ => true
  | .obj _ => true

/-- Property access `value[name]`: a field lookup on an object (duplicate
keys: the last one wins, as in `JSON.parse`), `undefined` (here `none`) on
every non-object. -/
def getField (j : Json) (name : String) : Option Json :=
  match j with
  | .obj fields => ((fields.filter (fun f => f.1 == name)).getLast?).map (fun f => f.2)
  | _ => none

/-- The issue selection of `create`: `Array.isArray(parsed) ? parsed[0] :
parsed`, where indexing an empty array yields `undefined` (`none`). -/
def selectIssue (parsed : Json) : Option Json :=
  match parsed with
  | .arr items => items.head?
  | v => some v

/-- The error message of `create` when `bd` returns no usable issue. -/
def createErrMsg : String := "bd create did not return an issue"

/-- The result handling of `create`: parse result already given as `parsed`;
take the first element when it is an array, then
`if (!issue || !issue.id) throw new Error(createErrMsg)` — the issue must be
truthy and carry a truthy `id` property — else return the issue. -/
def createParse (parsed : Json) : Except String Json :=
  match selectIssue parsed with
  | none => Except.error createErrMsg
  | some issue =>
    if jsTruthy issue then
      match getField issue "id" with
      | some v => if jsTruthy v then Except.ok issue else Except.error createErrMsg
      | none => Except.error createErrMsg
    else Except.error createErrMsg

/-! ## Theorems -/

/-- C7: a poll cycle in which `transport.send("stats", {})` throws invokes
no callback, retains the previous fingerprint baseline unchanged, and
leaves the periodic timer running so subsequent cycles still occur. -/
theorem changePoller_error_skips_cycle (s : PollerState) :
    pollStep s none = (s, []) ∧
    (pollStep s none).1.lastHash = s.lastHash ∧
    (pollStep s none).1.intervalMs = s.intervalMs := by
  refine ⟨rfl, rfl, rfl⟩

/-- Helper: a successful poll cycle always makes the sampled fingerprint
the new baseline and touches nothing else of the state. -/
theorem pollStep_fst (s : PollerState) (hash : String) :
    (pollStep s (some hash)).1 = { s with lastHash := hash } := by
  simp only [pollStep]
  split <;> rfl

/-- C3: the first successful sample of a fresh poller never invokes a
callback; after a successful sample with (nonempty `JSON.stringify`)
fingerprint `h1`, an identical sample invokes no callback, while a
differing sample `h2` invokes each registered callback exactly once and
makes `h2` the baseline for the next comparison. -/
theorem changePoller_diffing (cbs : List Nat) (s : PollerState) (h h1 h2 : String)
    (hprev : h1 ≠ "") (hdiff : h2 ≠ h1) :
    (pollStep (mkPoller cbs) (some h)).2 = [] ∧
    (pollStep (pollStep s (some h1)).1 (some h1)).2 = [] ∧
    (pollStep (pollStep s (some h1)).1 (some h2)).2 = (pollStep s (some h1)).1.callbacks ∧
    (pollStep (pollStep s (some h1)).1 (some h2)).1.lastHash = h2 := by
  rw [pollStep_fst s h1]
  refine ⟨?_, ?_, ?_, ?_⟩
  · simp [pollStep, mkPoller]
  · simp [pollStep]
  · simp [pollStep, hprev, hdiff]
  · simp [pollStep, hprev, hdiff]

/-- Witness for C3 at a concrete run: callbacks `[1, 2]`, fingerprints
`"a"` then `"b"`. -/
theorem changePoller_diffing_witness :
    (pollStep (mkPoller [1, 2]) (some "x")).2 = [] ∧
    (pollStep (pollStep (mkPoller [1, 2]) (some "a")).1 (some "a")).2 = [] ∧
    (pollStep (pollStep (mkPoller [1, 2]) (some "a")).1 (some "b")).2 =
      (pollStep (mkPoller [1, 2]) (some "a")).1.callbacks ∧
    (pollStep (pollStep (mkPoller [1, 2]) (some "a")).1 (some "b")).1.lastHash = "b" :=
  changePoller_diffing [1, 2] (mkPoller [1, 2]) "x" "a" "b" (by decide) (by decide)

/-- C8: calling `start` while a timer is running has no additional effect
(no second timer, no extra immediate sample); from a stopped state, `start`
with no argument installs the default 2000 ms interval, and every `start`
that does begin polling performs an immediate sample. -/
theorem changePoller_start_spec (s t : PollerState) (i : Option Nat)
    (hrun : s.intervalMs.isSome = true) (hstop : t.intervalMs = none) :
    startPoller s i = (s, false) ∧
    (startPoller t none).1.intervalMs = some 2000 ∧
    (startPoller t i).2 = true ∧
    (startPoller t i).1.intervalMs = some (i.getD 2000) := by
  obtain ⟨v, hv⟩ := Option.isSome_iff_exists.mp hrun
  refine ⟨?_, ?_, ?_, ?_⟩
  · simp [startPoller, hv]
  · simp [startPoller, hstop]
  · simp [startPoller, hstop]
  · simp [startPoller, hstop]

/-- Witness for C8 at a concrete poller: one running with a 1000 ms timer,
one stopped, explicit interval 500 ms. -/
theorem changePoller_start_spec_witness :
    startPoller ⟨some 1000, "", []⟩ (some 500) = (⟨some 1000, "", []⟩, false) ∧
    (startPoller (mkPoller []) none).1.intervalMs = some 2000 ∧
    (startPoller (mkPoller []) (some 500)).2 = true ∧
    (startPoller (mkPoller []) (some 500)).1.intervalMs = some ((some 500).getD 2000) :=
  changePoller_start_spec ⟨some 1000, "", []⟩ (mkPoller []) (some 500) rfl rfl

/-- C4: while the active transport is not the daemon (the client state is
well-formed: the daemon transport field is set iff the daemon is active),
every write operation — create, update, close, addDependency — rejects with
an error containing "requires a daemon connection", issues no
`transport.send` call, and leaves the client state unchanged. -/
theorem client_write_requires_daemon (s : ClientState)
    (hwf : s.daemon = true ↔ s.transport = some TransportKind.daemon)
    (ht : s.transport ≠ some TransportKind.daemon) :
    createOpC s = (Except.error (requireDaemonMsg "create"), [], s) ∧
    updateOpC s = (Except.error (requireDaemonMsg "update"), [], s) ∧
    closeOpC s = (Except.error (requireDaemonMsg "close"), [], s) ∧
    addDependencyOpC s = (Except.error (requireDaemonMsg "dep_add"), [], s) ∧
    strContains (requireDaemonMsg "create") "requires a daemon connection" = true ∧
    strContains (requireDaemonMsg "update") "requires a daemon connection" = true ∧
    strContains (requireDaemonMsg "close") "requires a daemon connection" = true ∧
    strContains (requireDaemonMsg "dep_add") "requires a daemon connection" = true := by
  have hd : s.daemon = false := by
    cases hdm : s.daemon
    · rfl
    · exact absurd (hwf.mp hdm) ht
  refine ⟨?_, ?_, ?_, ?_, by decide, by decide, by decide, by decide⟩ <;>
    simp [createOpC, updateOpC, closeOpC, addDependencyOpC, writeOpModel, hd]

/-- Witness for C4: a client connected via the JSONL fallback. -/
theorem client_write_requires_daemon_witness :
    createOpC ⟨false, true, some TransportKind.jsonl, false, true, true, []⟩ =
      (Except.error (requireDaemonMsg "create"), [],
        ⟨false, true, some TransportKind.jsonl, false, true, true, []⟩) ∧
    updateOpC ⟨false, true, some TransportKind.jsonl, false, true, true, []⟩ =
      (Except.error (requireDaemonMsg "update"), [],
        ⟨false, true, some TransportKind.jsonl, false, true, true, []⟩) ∧
    closeOpC ⟨false, true, some TransportKind.jsonl, false, true, true, []⟩ =
      (Except.error (requireDaemonMsg "close"), [],
        ⟨false, true, some TransportKind.jsonl, false, true, true, []⟩) ∧
    addDependencyOpC ⟨false, true, some TransportKind.jsonl, false, true, true, []⟩ =
      (Except.error (requireDaemonMsg "dep_add"), [],
        ⟨false, true, some TransportKind.jsonl, false, true, true, []⟩) ∧
    strContains (requireDaemonMsg "create") "requires a daemon connection" = true ∧
    strContains (requireDaemonMsg "update") "requires a daemon connection" = true ∧
    strContains (requireDaemonMsg "close") "requires a daemon connection" = true ∧
    strContains (requireDaemonMsg "dep_add") "requires a daemon connection" = true :=
  client_write_requires_daemon ⟨false, true, some TransportKind.jsonl, false, true, true, []⟩
    (by simp) (by simp)

/-- C5 counterexample: when both the daemon probe and the snapshot load
fail, `connect` rejects with a fixed message; at the concrete probe failure
reason "ECONNREFUSED" that reason does not occur in the message, so the
error does not concatenate the two attempts' failure reasons — the daemon
failure reason is swallowed. -/
theorem connect_error_swallows_daemon_reason :
    connectClient initClient false "ECONNREFUSED" false = Except.error connectMsg ∧
    strContains connectMsg "ECONNREFUSED" = false :=
  ⟨rfl, by decide⟩

/-- C5 amended: when both the daemon probe and the snapshot load fail,
`connect` rejects with one fixed error message that names both attempted
paths (the daemon and `.beads/issues.jsonl`); the daemon failure reason is
discarded and does not appear in the message. -/
theorem connect_both_fail_fixed_message (s : ClientState) (reason : String) :
    connectClient s false reason false = Except.error connectMsg ∧
    strContains connectMsg "daemon" = true ∧
    strContains connectMsg ".beads/issues.jsonl" = true :=
  ⟨rfl, by decide, by decide⟩

/-- C6 (failing run): with callbacks 0, 1, 2 registered and callback 0
unsubscribing itself when invoked, the notification round invokes 0 and 2
but never invokes callback 1 — removal during the live-array iteration
shifts the array under the iterator and skips another registered
callback, contradicting the required exactly-once delivery. -/
theorem notify_unsubscribe_skips :
    notifyAll [(0, some 0), (1, none), (2, none)] = [0, 2] ∧
    (notifyAll [(0, some 0), (1, none), (2, none)]).count 1 = 0 :=
  ⟨rfl, rfl⟩

/-- C9: `disconnect()` empties the change-callback list, so notification
delivers to nobody, and a subsequent successful `connect` (which never
touches the subscriber list) still leaves nobody subscribed: a callback
registered before `disconnect` is never invoked after it unless it is
registered again. -/
theorem client_disconnect_clears_callbacks (s s' : ClientState) (dOk jOk : Bool)
    (reason : String)
    (h : connectClient (disconnectClient s) dOk reason jOk = Except.ok s') :
    (disconnectClient s).changeCallbacks = [] ∧
    notifyChangeClient (disconnectClient s) = [] ∧
    notifyChangeClient s' = [] := by
  refine ⟨rfl, rfl, ?_⟩
  cases dOk <;> cases jOk <;>
    simp [connectClient, disconnectClient] at h <;>
    simp [notifyChangeClient, ← h]

/-- Witness for C9: a client with one subscriber is disconnected and then
reconnected via the daemon; no subscriber survives. -/
theorem client_disconnect_clears_callbacks_witness :
    (disconnectClient (onChangeClient initClient 7)).changeCallbacks = [] ∧
    notifyChangeClient (disconnectClient (onChangeClient initClient 7)) = [] ∧
    notifyChangeClient ⟨true, false, some TransportKind.daemon, true, false, true, []⟩ = [] :=
  client_disconnect_clears_callbacks (onChangeClient initClient 7)
    ⟨true, false, some TransportKind.daemon, true, false, true, []⟩ true false "" rfl

/-- Helper: a JSON value with a field is an object, hence truthy. -/
theorem getField_some_truthy (j : Json) (name : String) (v : Json)
    (h : getField j name = some v) : jsTruthy j = true := by
  cases j <;> simp [getField, jsTruthy] at h ⊢

/-- C10: `create` accepts both a single JSON object and a JSON array from
`bd`, taking an array's first element; every rejection carries exactly the
message "bd create did not return an issue"; it rejects whenever the
selected result is missing or has no `id` field; and whenever it returns an
issue, that issue is the selected result and carries a truthy `id`. -/
theorem create_parse_spec (parsed : Json) :
    (∀ issue, createParse parsed = Except.ok issue →
      selectIssue parsed = some issue ∧
      ∃ v, getField issue "id" = some v ∧ jsTruthy v = true) ∧
    (∀ e, createParse parsed = Except.error e → e = createErrMsg) ∧
    (selectIssue parsed = none → createParse parsed = Except.error createErrMsg) ∧
    (∀ issue, selectIssue parsed = some issue → getField issue "id" = none →
      createParse parsed = Except.error createErrMsg) ∧
    (∀ issue v, selectIssue parsed = some issue → getField issue "id" = some v →
      jsTruthy v = true → createParse parsed = Except.ok issue) := by
  refine ⟨?_, ?_, ?_, ?_, ?_⟩
  · intro issue hok
    unfold createParse at hok
    split at hok
    · exact absurd hok (by simp)
    · rename_i cand hsel
      split at hok
      · split at hok
        · rename_i htr v hid
          split at hok
          · rename_i hv
            cases hok
            exact ⟨hsel, v, hid, hv⟩
          · exact absurd hok (by simp)
        · exact absurd hok (by simp)
      · exact absurd hok (by simp)
  · intro e herr
    unfold createParse at herr
    split at herr
    · cases herr; rfl
    · split at herr
      · split at herr
        · split at herr
          · exact absurd herr (by simp)
          · cases herr; rfl
        · cases herr; rfl
      · cases herr; rfl
  · intro hnone
    unfold createParse
    rw [hnone]
  · intro issue hsel hid
    unfold createParse
    rw [hsel]
    split
    · rfl
    · rename_i cand heq
      cases heq
      split
      · simp only [hid]
      · rfl
  · intro issue v hsel hid hv
    unfold createParse
    rw [hsel]
    split
    · rename_i heq
      exact absurd heq (by simp)
    · rename_i cand heq
      cases heq
      split
      · simp only [hid]
        exact if_pos hv
      · rename_i htr
        exact absurd (getField_some_truthy issue "id" v hid) htr

/-- Helper: `listWithParents` maps every listed issue through the per-issue
enrichment against the details map (the early return on an empty list
coincides with mapping over the empty list). -/
theorem listWithParentsM_eq_map (issues detailed : List BdIssueM) :
    listWithParentsM issues detailed =
      issues.map (fun issue => enrichIssue issue (detailsMapGet detailed issue.id)) := by
  unfold listWithParentsM
  split
  · rename_i h
    have h0 : issues = [] := List.length_eq_zero.mp (by simpa using h)
    subst h0
    rfl
  · rfl

/-- Helper: when the detailed record carries a dependency list, the
enrichment sets `blocked_by` / `blocked_by_count` from the blockers filter
exactly when that filter is nonempty, and otherwise leaves both fields
absent (given they were absent on the listed issue). -/
theorem enrichIssue_blocked_fields (issue d : BdIssueM) (deps : List BdDepM)
    (hdeps : d.dependencies = some deps)
    (hb : issue.blocked_by = none) (hc : issue.blocked_by_count = none) :
    (blockersOf deps = [] →
      (enrichIssue issue (some d)).blocked_by = none ∧
      (enrichIssue issue (some d)).blocked_by_count = none) ∧
    (blockersOf deps ≠ [] →
      (enrichIssue issue (some d)).blocked_by =
        some ((blockersOf deps).map (fun b => b.id)) ∧
      (enrichIssue issue (some d)).blocked_by_count = some (blockersOf deps).length) := by
  rcases eq_or_ne (blockersOf deps) [] with hbl | hbl
  · refine ⟨fun _ => ?_, fun hne => absurd hbl hne⟩
    simp only [enrichIssue, hdeps, hbl, List.length_nil, gt_iff_lt, lt_self_iff_false,
      if_false]
    cases d.parent <;> (try split) <;> (try split) <;> simp [hb, hc]
  · refine ⟨fun heq => absurd heq hbl, fun _ => ?_⟩
    have hpos : 0 < (blockersOf deps).length := List.length_pos.mpr hbl
    simp only [enrichIssue, hdeps, if_pos hpos]
    cases d.parent <;> (try split) <;> (try split) <;> simp

/-- C2: every issue processed by `listWithParents` goes through the
enrichment against its detailed record; only dependencies with
`dependency_type = "blocks"` and status not `"closed"` count as blockers
(they populate `blocked_by` / `blocked_by_count`), and when that filter is
empty — in particular when the only blocking edges point at closed blockers
— the returned issue carries no `blocked_by` and no `blocked_by_count`
field at all. -/
theorem listWithParents_blocked_fields (issues detailed : List BdIssueM)
    (issue d : BdIssueM) (deps : List BdDepM)
    (_hmem : issue ∈ issues)
    (hb : issue.blocked_by = none) (hc : issue.blocked_by_count = none)
    (hd : detailsMapGet detailed issue.id = some d)
    (hdeps : d.dependencies = some deps) :
    listWithParentsM issues detailed =
      issues.map (fun j => enrichIssue j (detailsMapGet detailed j.id)) ∧
    (blockersOf deps = [] →
      (enrichIssue issue (detailsMapGet detailed issue.id)).blocked_by = none ∧
      (enrichIssue issue (detailsMapGet detailed issue.id)).blocked_by_count = none) ∧
    (blockersOf deps ≠ [] →
      (enrichIssue issue (detailsMapGet detailed issue.id)).blocked_by =
        some ((blockersOf deps).map (fun b => b.id)) ∧
      (enrichIssue issue (detailsMapGet detailed issue.id)).blocked_by_count =
        some (blockersOf deps).length) := by
  rw [hd]
  exact ⟨listWithParentsM_eq_map issues detailed,
    enrichIssue_blocked_fields issue d deps hdeps hb hc⟩

/-- Witness for C2: one open listed issue whose detailed record has a
single `blocks` dependency on a closed blocker — the enriched issue has
neither `blocked_by` nor `blocked_by_count`. -/
theorem listWithParents_blocked_fields_witness :
    listWithParentsM [⟨"A", "t", "open", none, none, none, none⟩]
        [⟨"A", "t", "open", none, some [⟨"B", "blocks", "closed"⟩], none, none⟩] =
      ([⟨"A", "t", "open", none, none, none, none⟩] : List BdIssueM).map
        (fun j => enrichIssue j
          (detailsMapGet [⟨"A", "t", "open", none, some [⟨"B", "blocks", "closed"⟩], none, none⟩]
            j.id)) ∧
    (blockersOf [⟨"B", "blocks", "closed"⟩] = [] →
      (enrichIssue ⟨"A", "t", "open", none, none, none, none⟩
        (detailsMapGet
          [⟨"A", "t", "open", none, some [⟨"B", "blocks", "closed"⟩], none, none⟩]
          (BdIssueM.id ⟨"A", "t", "open", none, none, none, none⟩))).blocked_by = none ∧
      (enrichIssue ⟨"A", "t", "open", none, none, none, none⟩
        (detailsMapGet
          [⟨"A", "t", "open", none, some [⟨"B", "blocks", "closed"⟩], none, none⟩]
          (BdIssueM.id ⟨"A", "t", "open", none, none, none, none⟩))).blocked_by_count = none) ∧
    (blockersOf [⟨"B", "blocks", "closed"⟩] ≠ [] →
      (enrichIssue ⟨"A", "t", "open", none, none, none, none⟩
        (detailsMapGet
          [⟨"A", "t", "open", none, some [⟨"B", "blocks", "closed"⟩], none, none⟩]
          (BdIssueM.id ⟨"A", "t", "open", none, none, none, none⟩))).blocked_by =
        some ((blockersOf [⟨"B", "blocks", "closed"⟩]).map (fun b => b.id)) ∧
      (enrichIssue ⟨"A", "t", "open", none, none, none, none⟩
        (detailsMapGet
          [⟨"A", "t", "open", none, some [⟨"B", "blocks", "closed"⟩], none, none⟩]
          (BdIssueM.id ⟨"A", "t", "open", none, none, none, none⟩))).blocked_by_count =
        some (blockersOf [⟨"B", "blocks", "closed"⟩]).length) :=
  listWithParents_blocked_fields
    [⟨"A", "t", "open", none, none, none, none⟩]
    [⟨"A", "t", "open", none, some [⟨"B", "blocks", "closed"⟩], none, none⟩]
    ⟨"A", "t", "open", none, none, none, none⟩
    ⟨"A", "t", "open", none, some [⟨"B", "blocks", "closed"⟩], none, none⟩
    [⟨"B", "blocks", "closed"⟩]
    (List.mem_singleton.mpr rfl) rfl rfl rfl rfl

/-- Helper: an edge fails the unresolved-blocker test exactly when it is
not a `blocks` edge or its referenced blocker resolves to a closed issue
(dangling edges always fail the test). -/
theorem edgeUnresolved_eq_false_iff (snap : List RawIssue) (e : RawDep) :
    (¬ edgeUnresolved snap e = true) ↔
      (e.type = "blocks" →
        ∀ b, resolveIssue snap e.depends_on_id = some b → b.status = "closed") := by
  constructor
  · intro hne htype b hres
    by_contra hcl
    apply hne
    simp [edgeUnresolved, htype, hres, bne_iff_ne]
    exact hcl
  · intro himp hedge
    simp only [edgeUnresolved, Bool.and_eq_true, beq_iff_eq] at hedge
    obtain ⟨htype, hrest⟩ := hedge
    cases hres : resolveIssue snap e.depends_on_id with
    | none => rw [hres] at hrest; simp at hrest
    | some b =>
      rw [hres] at hrest
      simp only [bne_iff_ne, ne_eq] at hrest
      exact hrest (himp htype b hres)

/-- C1 counterexample (spec-modelled: the JSONL transport implementation
is absent from the provided sources; its tests pin the behavior): a loaded
`in_progress` issue with no dependencies at all satisfies the claim's
ready-criteria — status open or in_progress, zero unresolved `blocks`
edges — yet `ready` does not return it, because the transport (per its
test) filters on status `open` only. -/
theorem jsonl_ready_in_progress_cex :
    (⟨"A", "t", "in_progress", []⟩ : RawIssue) ∈
      loadedIssues [⟨"A", "t", "in_progress", []⟩] ∧
    (RawIssue.status ⟨"A", "t", "in_progress", []⟩ = "open" ∨
      RawIssue.status ⟨"A", "t", "in_progress", []⟩ = "in_progress") ∧
    (∀ e ∈ RawIssue.dependencies ⟨"A", "t", "in_progress", []⟩, e.type = "blocks" →
      ∀ b, resolveIssue [⟨"A", "t", "in_progress", []⟩] e.depends_on_id = some b →
        b.status = "closed") ∧
    (⟨"A", "t", "in_progress", []⟩ : RawIssue) ∉ readyOp [⟨"A", "t", "in_progress", []⟩] := by
  refine ⟨by decide, Or.inr rfl, by simp, by decide⟩

/-- C1 amended (spec-modelled: the JSONL transport implementation is
absent from the provided sources): the snapshot transport's `ready`
operation returns exactly the loaded issues whose status is `open` (not
`in_progress`, per the transport's tests) and that have zero unresolved
`blocks` edges — equivalently, every `blocks` edge whose referenced blocker
resolves in the snapshot points at a blocker whose status is `closed`. -/
theorem jsonl_ready_exact (snap : List RawIssue) (i : RawIssue) :
    i ∈ readyOp snap ↔
      i ∈ loadedIssues snap ∧
      i.status = "open" ∧
      ∀ e ∈ i.dependencies, e.type = "blocks" →
        ∀ b, resolveIssue snap e.depends_on_id = some b → b.status = "closed" := by
  unfold readyOp
  rw [List.mem_filter]
  refine and_congr Iff.rfl ?_
  simp only [Bool.and_eq_true, beq_iff_eq]
  refine and_congr Iff.rfl ?_
  unfold unresolvedBlockCount
  rw [List.length_eq_zero, List.filter_eq_nil_iff]
  constructor
  · intro hall e he
    exact (edgeUnresolved_eq_false_iff snap e).mp (hall e he)
  · intro hall e he
    exact (edgeUnresolved_eq_false_iff snap e).mpr (hall e he)
